import Mathlib

/-!
Shallow embedding of the tag-media domain layer (base paths, tag
categories, tags, media files and media-tag associations) together with
the registry operations of `src/media/base_paths.rs`, `src/tags/category.rs`,
`src/tags/tags.rs`, `src/media/media.rs` and `src/data/media_file.rs`.

The relational store is modelled as lists of rows inside a `DB` record;
every state-changing operation takes the current `DB` and returns the
result together with the `DB` after the call, so that "no write was
issued" is expressible as equality of states.  Storage/connection
failures cannot arise in the model (the store is total), hence the
`DatabaseError`/`ConnectionError` constructors of the source error enums
are omitted; every other constructor is kept.
-/

deriving instance DecidableEq for Except

namespace TagMedia

/-- Rust `str::trim`: strips whitespace from both ends.  Implemented on the
character list so that it reduces in the kernel. -/
def rustTrim (s : String) : String :=
  String.mk (((s.data.dropWhile Char.isWhitespace).reverse.dropWhile Char.isWhitespace).reverse)

/-- Rust `str::trim_matches('/')`: strips `/` from both ends. -/
def trimSlashes (s : String) : String :=
  String.mk (((s.data.dropWhile (· == '/')).reverse.dropWhile (· == '/')).reverse)

/-- Rust `str::trim_end_matches('/')`: strips `/` from the end only. -/
def trimEndSlashes (s : String) : String :=
  String.mk ((s.data.reverse.dropWhile (· == '/')).reverse)

/-- Rust `str::len`: the length of a string in UTF-8 bytes. -/
def strBytes (s : String) : Nat :=
  (s.data.map Char.utf8Size).sum

/-- A combining character (Unicode combining diacritical marks block),
which extends the preceding grapheme cluster instead of starting one. -/
def combiningMark (c : Char) : Bool :=
  decide (0x300 ≤ c.toNat) && decide (c.toNat ≤ 0x36F)

/-- Model of `unicode_segmentation`'s `graphemes(true).count()` (an external
crate): the number of extended grapheme clusters.  A character starts a new
cluster unless it is a combining mark.  This agrees with UAX #29 on every
string made of ASCII and precomposed characters, which covers all strings
this development evaluates it on. -/
def graphemeCount (s : String) : Nat :=
  (s.data.filter (fun c => !(combiningMark c))).length

/-- `lp` is a prefix of `ls` (character lists). -/
def listStartsWith : List Char → List Char → Bool
  | _, [] => true
  | [], _ :: _ => false
  | a :: as, b :: bs => a == b && listStartsWith as bs

/-- Rust `str::starts_with(p)` on `s`. -/
def strStartsWith (s p : String) : Bool :=
  listStartsWith s.data p.data

/-- Rust `str::to_ascii_lowercase`. -/
def asciiLower (s : String) : String :=
  String.mk (s.data.map Char.toLower)

/-- Modelled from the spec: the external `raster` crate's `Color::hex`
parser used by `Category::validate` — a color string is valid iff it is
exactly six hex digits (case-insensitive). -/
def colorHexOk (s : String) : Bool :=
  s.data.length == 6 && s.data.all (fun c => c.isDigit || ('a' ≤ c && c ≤ 'f') || ('A' ≤ c && c ≤ 'F'))

/-- The id the store assigns to a freshly inserted row (one more than the
largest id in use, mirroring SQLite rowid assignment). -/
def nextId (ids : List Int) : Int :=
  ids.foldl max 0 + 1

/-- Insert `a` into `l` before the first element `b` with `¬ le a b`. -/
def insertLe (le : α → α → Bool) (a : α) : List α → List α
  | [] => [a]
  | b :: bs => if le a b then a :: b :: bs else b :: insertLe le a bs

/-- Insertion sort; models both Rust's `sort_unstable` and the store's
`ORDER BY ... ASC`. -/
def sortLe (le : α → α → Bool) : List α → List α
  | [] => []
  | a :: as => insertLe le a (sortLe le as)

theorem insertLe_perm (le : α → α → Bool) (a : α) (l : List α) :
    List.Perm (insertLe le a l) (a :: l) := by
  induction l with
  | nil => simp [insertLe]
  | cons b bs ih =>
    by_cases h : le a b = true
    · simp [insertLe, h]
    · simp only [insertLe, h, if_false]
      exact (ih.cons b).trans (List.Perm.swap a b bs)

theorem sortLe_perm (le : α → α → Bool) (l : List α) :
    List.Perm (sortLe le l) l := by
  induction l with
  | nil => simp [sortLe]
  | cons a as ih =>
    exact (insertLe_perm le a (sortLe le as)).trans (ih.cons a)

theorem mem_sortLe (le : α → α → Bool) (l : List α) (x : α) :
    x ∈ sortLe le l ↔ x ∈ l :=
  (sortLe_perm le l).mem_iff

theorem insertLe_pairwise (le : α → α → Bool)
    (htot : ∀ a b, le a b = true ∨ le b a = true)
    (htr : ∀ a b c, le a b = true → le b c = true → le a c = true)
    (a : α) (l : List α) (hl : l.Pairwise (fun x y => le x y = true)) :
    (insertLe le a l).Pairwise (fun x y => le x y = true) := by
  induction l with
  | nil => simp [insertLe]
  | cons b bs ih =>
    rcases List.pairwise_cons.mp hl with ⟨hb, hbs⟩
    by_cases h : le a b = true
    · simp only [insertLe, h, if_true]
      refine List.pairwise_cons.mpr ⟨?_, hl⟩
      intro y hy
      rcases List.mem_cons.mp hy with rfl | hy'
      · exact h
      · exact htr a b y h (hb y hy')
    · simp only [insertLe, h, if_false]
      refine List.pairwise_cons.mpr ⟨?_, ih hbs⟩
      intro y hy
      have hy' := (insertLe_perm le a bs).mem_iff.mp hy
      rcases List.mem_cons.mp hy' with heq | hy''
      · subst heq
        rcases htot y b with h' | h'
        · exact absurd h' h
        · exact h'
      · exact hb y hy''

theorem sortLe_pairwise (le : α → α → Bool)
    (htot : ∀ a b, le a b = true ∨ le b a = true)
    (htr : ∀ a b c, le a b = true → le b c = true → le a c = true)
    (l : List α) :
    (sortLe le l).Pairwise (fun x y => le x y = true) := by
  induction l with
  | nil => simp [sortLe]
  | cons a as ih => exact insertLe_pairwise le htot htr a (sortLe le as) ih

/-- Rust `Vec::dedup`: removes consecutive repeated elements. -/
def rustDedup : List Int → List Int
  | [] => []
  | a :: rest =>
    match rest with
    | [] => [a]
    | b :: _ => if a = b then rustDedup rest else a :: rustDedup rest

theorem rustDedup_cons_cons (a b : Int) (t : List Int) :
    rustDedup (a :: b :: t) =
      if a = b then rustDedup (b :: t) else a :: rustDedup (b :: t) := rfl

theorem rustDedup_subset (l : List Int) : ∀ x ∈ rustDedup l, x ∈ l := by
  induction l with
  | nil => simp [rustDedup]
  | cons a rest ih =>
    cases rest with
    | nil => simp [rustDedup]
    | cons b t =>
      intro x hx
      rw [rustDedup_cons_cons] at hx
      by_cases h : a = b
      · rw [if_pos h] at hx
        exact List.mem_cons_of_mem a (ih x hx)
      · rw [if_neg h] at hx
        rcases List.mem_cons.mp hx with rfl | hx'
        · exact List.mem_cons_self x _
        · exact List.mem_cons_of_mem a (ih x hx')

theorem mem_rustDedup (l : List Int) : ∀ x ∈ l, x ∈ rustDedup l := by
  induction l with
  | nil => simp
  | cons a rest ih =>
    cases rest with
    | nil => simp [rustDedup]
    | cons b t =>
      intro x hx
      rw [rustDedup_cons_cons]
      by_cases h : a = b
      · rw [if_pos h]
        rcases List.mem_cons.mp hx with rfl | hx'
        · exact ih x (h ▸ List.mem_cons_self b t)
        · exact ih x hx'
      · rw [if_neg h]
        rcases List.mem_cons.mp hx with rfl | hx'
        · exact List.mem_cons_self x _
        · exact List.mem_cons_of_mem a (ih x hx')

theorem rustDedup_mem_iff (l : List Int) (x : Int) :
    x ∈ rustDedup l ↔ x ∈ l :=
  ⟨rustDedup_subset l x, mem_rustDedup l x⟩

theorem rustDedup_nodup (l : List Int) (hl : l.Pairwise (· ≤ ·)) :
    (rustDedup l).Nodup := by
  induction l with
  | nil => simp [rustDedup]
  | cons a rest ih =>
    cases rest with
    | nil => simp [rustDedup]
    | cons b t =>
      rcases List.pairwise_cons.mp hl with ⟨hb, hbs⟩
      rw [rustDedup_cons_cons]
      by_cases h : a = b
      · rw [if_pos h]
        exact ih hbs
      · rw [if_neg h]
        refine List.nodup_cons.mpr ⟨?_, ih hbs⟩
        intro hmem
        have hmem' := rustDedup_subset _ a hmem
        have hab : a < b := lt_of_le_of_ne (hb b (List.mem_cons_self b t)) h
        rcases List.mem_cons.mp hmem' with heq | hmem''
        · exact absurd heq (ne_of_lt hab)
        · rcases List.pairwise_cons.mp hbs with ⟨hbt, _⟩
          have hba : b ≤ a := hbt a hmem''
          exact absurd rfl (ne_of_lt (lt_of_lt_of_le hab hba))

theorem rustDedup_eq_nil_iff (l : List Int) : rustDedup l = [] ↔ l = [] := by
  induction l with
  | nil => simp [rustDedup]
  | cons a rest ih =>
    cases rest with
    | nil => simp [rustDedup]
    | cons b t =>
      rw [rustDedup_cons_cons]
      by_cases h : a = b
      · rw [if_pos h, ih]
        simp
      · rw [if_neg h]
        simp

/-! ## Data model (`src/data/*.rs`, `src/database/schema.rs`) -/

/-- `src/data/media_file.rs`: the `MediaType` enum. -/
inductive MediaType
  | Unknown
  | Image
  | Video
  | Sound
deriving DecidableEq, Repr

/-- `src/data/media_file.rs`: `impl Into<MediaType> for String` — how a
stored `media_type` string deserializes. -/
def stringToMediaType (s : String) : MediaType :=
  if s = "image" then .Image
  else if s = "video" then .Video
  else if s = "sound" then .Sound
  else .Unknown

/-- `src/data/media_file.rs`: `impl From<MediaType> for String` — how a
`MediaType` serializes for storage. -/
def mediaTypeToString : MediaType → String
  | .Image => "image"
  | .Video => "video"
  | .Sound => "sound"
  | _ => ""

/-- `src/data/base_path.rs`: a `base_paths` row.  Ids are machine integers
in the source (`i32`/`i64`); no operation can overflow them here, so they
are modelled as `Int`. -/
structure BasePath where
  id : Int
  base_path : String
  description : String
deriving DecidableEq, Repr

/-- `src/data/tag_category.rs`: a `tag_categories` row. -/
structure Category where
  id : Int
  name : String
  color : String
  description : String
deriving DecidableEq, Repr

/-- `src/data/tag.rs`: a `tags` row. -/
structure Tag where
  id : Int
  name : String
  category_id : Int
  description : String
deriving DecidableEq, Repr

/-- `src/data/media_file.rs`: a `media` row.  The `f64` size is modelled
as a rational (the code only ever compares it with 0). -/
structure MediaFile where
  id : Int
  relative_path : String
  base_path_id : Int
  width : Option Int
  height : Option Int
  size : Rat
  mark : Option Int
  description : String
  media_type : MediaType
deriving DecidableEq, Repr

/-- `src/media/media.rs`: a `media_tags` row. -/
structure MediaTag where
  id : Int
  media_id : Int
  tag_id : Int
deriving DecidableEq, Repr

/-- The storage engine's state: the five tables, each a list of rows in
insertion order. -/
structure DB where
  base_paths : List BasePath
  tag_categories : List Category
  tags : List Tag
  media : List MediaFile
  media_tags : List MediaTag
deriving DecidableEq, Repr

/-! ## Error enums (storage/connection constructors omitted, see header) -/

/-- `src/media/base_paths.rs`: `Error`. -/
inductive BpError
  | InvalidID
  | NotFound
  | DescriptionTooLong
  | InvalidPath
  | NotExists
  | NotADirectory
  | NotAbsolute
  | AlreadyExists
  | IsSubPath
  | InUse
deriving DecidableEq, Repr

/-- `src/tags/category.rs`: `Error`. -/
inductive CatError
  | InvalidID
  | NotFound
  | InvalidColor
  | InvalidName
  | NameTooLong
  | DescriptionTooLong
  | NameToSearchTooShort
deriving DecidableEq, Repr

/-- `src/tags/tags.rs`: `Error`. -/
inductive TagsError
  | InvalidCategoryID
  | CategoryNotFound
  | CategoryError (e : CatError)
  | InvalidID
  | InvalidName
  | NameTooLong
  | DescriptionTooLong
  | NotFound
  | AlreadyExists
deriving DecidableEq, Repr

/-- `src/media/media.rs`: `Error`. -/
inductive MediaError
  | BasePathsError (e : BpError)
  | InvalidID
  | NotFound
  | InvalidRelativePath
  | InvalidBasePathID
  | InvalidWidth
  | InvalidHeight
  | InvalidSize
  | InvalidMark
  | DescriptionTooLong
  | AlreadyExists
  | InUse
  | TagError (e : TagsError)
  | AlreadyTagged
  | TagNotFound
  | NoTagsProvided
deriving DecidableEq, Repr

/-- The filesystem the base-path registry probes (`Path::exists`,
`Path::is_dir`); an external collaborator, passed in as an oracle. -/
structure FS where
  pathExists : String → Bool
  isDir : String → Bool

/-! ## BasePathRegistry (`src/media/base_paths.rs`) -/

/-- `BasePaths::get`. -/
def basePathsGet (db : DB) (id : Int) : Except BpError BasePath :=
  if id ≤ 0 then .error .InvalidID
  else
    match db.base_paths.find? (fun bp => bp.id == id) with
    | none => .error .NotFound
    | some bp => .ok bp

/-- `BasePaths::list` (read-only): all rows, or the rows whose id is in
`ids` when that is non-empty, ordered by id ascending. -/
def basePathsList (db : DB) (ids : Option (List Int)) : List BasePath :=
  let bp_ids := ids.getD []
  let sel :=
    if bp_ids.length == 0 then db.base_paths
    else db.base_paths.filter (fun bp => bp_ids.contains bp.id)
  sortLe (fun a b => decide (a.id ≤ b.id)) sel

/-- The uniqueness/containment scan of `BasePaths::create`: the first
existing row equal to `bp` gives `AlreadyExists`; the first one that is a
string prefix of `bp` gives `IsSubPath`. -/
def scanContainment (l : List BasePath) (bp : String) : Option BpError :=
  match l with
  | [] => none
  | b :: rest =>
    if b.base_path == bp then some .AlreadyExists
    else if strStartsWith bp b.base_path then some .IsSubPath
    else scanContainment rest bp

/-- `BasePaths::create`.  `Path::is_absolute` is Unix `has_root`, i.e. the
path begins with `/`. -/
def basePathsCreate (fs : FS) (db : DB) (base_path description : String) :
    Except BpError BasePath × DB :=
  let bp := trimEndSlashes (rustTrim base_path)
  if strBytes bp == 0 then (.error .InvalidPath, db)
  else
    let desc := rustTrim description
    if graphemeCount desc > 300 then (.error .DescriptionTooLong, db)
    else if !(fs.pathExists bp) then (.error .NotExists, db)
    else if !(fs.isDir bp) then (.error .NotADirectory, db)
    else if !(strStartsWith bp "/") then (.error .NotAbsolute, db)
    else
      match scanContainment (basePathsList db none) bp with
      | some e => (.error e, db)
      | none =>
        let row : BasePath :=
          { id := nextId (db.base_paths.map (·.id)), base_path := bp, description := desc }
        (.ok row, { db with base_paths := db.base_paths ++ [row] })

/-- `BasePaths::update_description`. -/
def basePathsUpdateDescription (db : DB) (id : Int) (new_description : String) :
    Except BpError Unit × DB :=
  match basePathsGet db id with
  | .error e => (.error e, db)
  | .ok _ =>
    let new_desc := rustTrim new_description
    if strBytes new_desc > 300 then (.error .DescriptionTooLong, db)
    else
      (.ok (),
        { db with
          base_paths := db.base_paths.map (fun bp =>
            if bp.id == id then { bp with description := new_desc } else bp) })

/-- `BasePaths::delete`. -/
def basePathsDelete (db : DB) (id : Int) : Except BpError Unit × DB :=
  match basePathsGet db id with
  | .error e => (.error e, db)
  | .ok _ =>
    if (db.media.filter (fun m => m.base_path_id == id)).length == 0 then
      (.ok (), { db with base_paths := db.base_paths.filter (fun bp => !(bp.id == id)) })
    else (.error .InUse, db)

/-! ## CategoryRegistry (`src/tags/category.rs`) -/

/-- `TagCategories::get`. -/
def categoriesGet (db : DB) (id : Int) : Except CatError Category :=
  if id ≤ 0 then .error .InvalidID
  else
    match db.tag_categories.find? (fun c => c.id == id) with
    | none => .error .NotFound
    | some c => .ok c

/-- `src/tags/category.rs`: `UpdateTagCategory`. -/
structure UpdateTagCategory where
  name : Option String
  color : Option String
  description : Option String

/-- `Category::with_new_data`. -/
def categoryWithNewData (c : Category) (nd : UpdateTagCategory) : Category :=
  { c with
    name := nd.name.getD c.name
    color := nd.color.getD c.color
    description := nd.description.getD c.description }

/-- `Category::clean`. -/
def categoryClean (c : Category) : Category :=
  { c with
    name := rustTrim c.name
    color := asciiLower c.color
    description := rustTrim c.description }

/-- `Category::validate`. -/
def categoryValidate (c : Category) : Except CatError Category :=
  if strBytes c.name == 0 then .error .InvalidName
  else if graphemeCount c.name > 50 then .error .NameTooLong
  else if graphemeCount c.description > 300 then .error .DescriptionTooLong
  else if !(colorHexOk c.color) then .error .InvalidColor
  else .ok c

/-- `TagCategories::update`. -/
def categoriesUpdate (db : DB) (id : Int) (nd : UpdateTagCategory) :
    Except CatError Unit × DB :=
  match categoriesGet db id with
  | .error e => (.error e, db)
  | .ok c =>
    match categoryValidate (categoryClean (categoryWithNewData c nd)) with
    | .error e => (.error e, db)
    | .ok d =>
      (.ok (),
        { db with
          tag_categories := db.tag_categories.map (fun x =>
            if x.id == id then { d with id := x.id } else x) })

/-- `TagCategories::list` (read-only). -/
def categoriesList (db : DB) (ids : Option (List Int)) : List Category :=
  let tc_ids := ids.getD []
  let sel :=
    if tc_ids.length == 0 then db.tag_categories
    else db.tag_categories.filter (fun c => tc_ids.contains c.id)
  sortLe (fun a b => decide (a.id ≤ b.id)) sel

/-- `TagCategories::search_by_name` (read-only).  Rust `to_lowercase` is
modelled with the same ASCII lowering as `to_ascii_lowercase`; the two
agree on every string this development evaluates. -/
def categoriesSearchByName (db : DB) (name : String) :
    Except CatError (List Category) :=
  if graphemeCount name < 3 then .error .NameToSearchTooShort
  else
    .ok ((categoriesList db none).filter (fun c =>
      strStartsWith (asciiLower c.name) (asciiLower name)))

/-- `TagCategories::delete` — performs no referential check against tags. -/
def categoriesDelete (db : DB) (id : Int) : Except CatError Unit × DB :=
  match categoriesGet db id with
  | .error e => (.error e, db)
  | .ok _ =>
    (.ok (), { db with tag_categories := db.tag_categories.filter (fun c => !(c.id == id)) })

/-! ## TagRegistry (`src/tags/tags.rs`) -/

/-- `src/tags/tags.rs`: `CreateTag`. -/
structure CreateTag where
  name : String
  category_id : Int
  description : String

/-- `src/tags/tags.rs`: `UpdateTag`. -/
structure UpdateTag where
  name : Option String
  category_id : Option Int
  description : Option String

/-- `CreateTag::into_tag`. -/
def createTagToTag (d : CreateTag) : Tag :=
  { id := 0, name := d.name, category_id := d.category_id, description := d.description }

/-- `Tag::clean`. -/
def tagClean (t : Tag) : Tag :=
  { t with name := rustTrim t.name, description := rustTrim t.description }

/-- `Tag::with_new_data`. -/
def tagWithNewData (t : Tag) (nd : UpdateTag) : Tag :=
  { t with
    name := nd.name.getD t.name
    category_id := nd.category_id.getD t.category_id
    description := nd.description.getD t.description }

/-- `Tag::validate` — name and description limits are measured with
`str::len`, i.e. in UTF-8 bytes. -/
def tagValidate (db : DB) (t : Tag) : Except TagsError Tag :=
  if t.category_id ≤ 0 then .error .InvalidCategoryID
  else
    match categoriesGet db t.category_id with
    | .error e => .error (.CategoryError e)
    | .ok _ =>
      if strBytes t.name == 0 then .error .InvalidName
      else if strBytes t.name > 50 then .error .NameTooLong
      else if strBytes t.description > 300 then .error .DescriptionTooLong
      else .ok t

/-- `Tags::get`. -/
def tagsGet (db : DB) (id : Int) : Except TagsError Tag :=
  if id ≤ 0 then .error .InvalidID
  else
    match db.tags.find? (fun t => t.id == id) with
    | none => .error .NotFound
    | some t => .ok t

/-- `Tags::already_exists`: first row with this `(name, category_id)`. -/
def tagAlreadyExists (db : DB) (name : String) (category_id : Int) : Option Unit :=
  match db.tags.find? (fun t => t.name == name && t.category_id == category_id) with
  | none => none
  | some _ => some ()

/-- `Tags::create`. -/
def tagsCreate (db : DB) (data : CreateTag) : Except TagsError Tag × DB :=
  match tagValidate db (tagClean (createTagToTag data)) with
  | .error e => (.error e, db)
  | .ok d =>
    match tagAlreadyExists db d.name d.category_id with
    | some _ => (.error .AlreadyExists, db)
    | none =>
      let row : Tag := { d with id := nextId (db.tags.map (·.id)) }
      (.ok row, { db with tags := db.tags ++ [row] })

/-- `Tags::update` — note that the `already_exists` scan does not exclude
the row being updated. -/
def tagsUpdate (db : DB) (id : Int) (nd : UpdateTag) : Except TagsError Unit × DB :=
  match tagsGet db id with
  | .error e => (.error e, db)
  | .ok t =>
    match tagValidate db (tagClean (tagWithNewData t nd)) with
    | .error e => (.error e, db)
    | .ok d =>
      match tagAlreadyExists db d.name d.category_id with
      | some _ => (.error .AlreadyExists, db)
      | none =>
        (.ok (),
          { db with
            tags := db.tags.map (fun x => if x.id == id then { d with id := x.id } else x) })

/-- `Tags::list` (read-only). -/
def tagsList (db : DB) (category : Option Int) : Except TagsError (List Tag) :=
  match category with
  | none => .ok (sortLe (fun a b => decide (a.name ≤ b.name)) db.tags)
  | some cat_id =>
    if cat_id ≤ 0 then .error .InvalidCategoryID
    else
      match categoriesGet db cat_id with
      | .error .NotFound => .error .CategoryNotFound
      | .error e => .error (.CategoryError e)
      | .ok _ =>
        .ok (sortLe (fun a b => decide (a.name ≤ b.name))
          (db.tags.filter (fun t => t.category_id == cat_id)))

/-- `Tags::search_by_name` (read-only). -/
def tagsSearchByName (db : DB) (name : String) : Except TagsError (List Tag) :=
  let name_to_search := rustTrim name
  if graphemeCount name_to_search < 3 then .error .InvalidName
  else
    match tagsList db none with
    | .error e => .error e
    | .ok list =>
      .ok (list.filter (fun t =>
        strStartsWith (asciiLower t.name) (asciiLower name_to_search)))

/-- `Tags::delete` — performs no referential check against media
associations. -/
def tagsDelete (db : DB) (id : Int) : Except TagsError Unit × DB :=
  match tagsGet db id with
  | .error e => (.error e, db)
  | .ok _ =>
    (.ok (), { db with tags := db.tags.filter (fun t => !(t.id == id)) })

/-! ## MediaCatalog (`src/media/media.rs`) -/

/-- `src/media/media.rs`: `CreateMediaFile`. -/
structure CreateMediaFile where
  relative_path : String
  base_path_id : Int
  width : Option Int
  height : Option Int
  size : Rat
  mark : Option Int
  description : String
  media_type : MediaType

/-- `src/media/media.rs`: `UpdateMediaFile`. -/
structure UpdateMediaFile where
  width : Option Int
  height : Option Int
  size : Option Rat
  mark : Option Int
  description : Option String

/-- `impl From<CreateMediaFile> for MediaFile`: normalizes the relative
path and the description. -/
def mediaFileFromCreate (v : CreateMediaFile) : MediaFile :=
  { id := 0
    relative_path := trimSlashes v.relative_path
    base_path_id := v.base_path_id
    width := v.width
    height := v.height
    size := v.size
    mark := v.mark
    description := rustTrim v.description
    media_type := v.media_type }

/-- `MediaFile::validate`. -/
def mediaFileValidate (m : MediaFile) : Except MediaError MediaFile :=
  if m.relative_path == "" then .error .InvalidRelativePath
  else if m.base_path_id ≤ 0 then .error .InvalidBasePathID
  else if m.width.elim false (fun v => decide (v ≤ 0)) then .error .InvalidWidth
  else if m.height.elim false (fun v => decide (v ≤ 0)) then .error .InvalidHeight
  else if m.size ≤ 0 then .error .InvalidSize
  else if m.mark.elim false (fun v => decide (v ≤ 0 ∨ v > 10)) then .error .InvalidMark
  else if graphemeCount m.description > 300 then .error .DescriptionTooLong
  else .ok m

/-- `MediaFile::with_new_data`. -/
def mediaFileWithNewData (m : MediaFile) (nd : UpdateMediaFile) : MediaFile :=
  { m with
    width := match nd.width with | none => m.width | some w => some w
    height := match nd.height with | none => m.height | some h => some h
    size := nd.size.getD m.size
    mark := match nd.mark with | none => m.mark | some k => some k
    description := nd.description.getD m.description }

/-- `Media::get`. -/
def mediaGet (db : DB) (id : Int) : Except MediaError MediaFile :=
  if id ≤ 0 then .error .InvalidID
  else
    match db.media.find? (fun m => m.id == id) with
    | none => .error .NotFound
    | some m => .ok m

/-- `Media::get_by_relative_path` (read-only). -/
def mediaGetByRelativePath (db : DB) (base_path_id : Int) (relative_path : String) :
    Except MediaError MediaFile :=
  let rp := trimSlashes relative_path
  if rp == "" then .error .InvalidRelativePath
  else if base_path_id ≤ 0 then .error .InvalidBasePathID
  else
    match db.media.find? (fun m => m.relative_path == rp && m.base_path_id == base_path_id) with
    | none => .error .NotFound
    | some m => .ok m

/-- `Media::create`: base-path lookup, then validation of the normalized
record, then the `(base_path_id, relative_path)` uniqueness scan, then the
insert. -/
def mediaCreate (db : DB) (cd : CreateMediaFile) : Except MediaError MediaFile × DB :=
  match basePathsGet db cd.base_path_id with
  | .error e => (.error (.BasePathsError e), db)
  | .ok _ =>
    match mediaFileValidate (mediaFileFromCreate cd) with
    | .error e => (.error e, db)
    | .ok d =>
      match db.media.find? (fun m =>
          m.base_path_id == d.base_path_id && m.relative_path == d.relative_path) with
      | some _ => (.error .AlreadyExists, db)
      | none =>
        let row : MediaFile := { d with id := nextId (db.media.map (·.id)) }
        (.ok row, { db with media := db.media ++ [row] })

/-- `Media::update`. -/
def mediaUpdate (db : DB) (id : Int) (nd : UpdateMediaFile) :
    Except MediaError Unit × DB :=
  match mediaGet db id with
  | .error e => (.error e, db)
  | .ok m =>
    match mediaFileValidate (mediaFileWithNewData m nd) with
    | .error e => (.error e, db)
    | .ok d =>
      (.ok (),
        { db with
          media := db.media.map (fun x => if x.id == id then { d with id := x.id } else x) })

/-- `Media::list`: verifies the base path exists, then returns ALL media
rows ordered by id ascending (no filter on `base_path_id`). -/
def mediaList (db : DB) (base_path_id : Int) : Except MediaError (List MediaFile) :=
  match basePathsGet db base_path_id with
  | .error e => .error (.BasePathsError e)
  | .ok _ => .ok (sortLe (fun a b => decide (a.id ≤ b.id)) db.media)

/-- `Media::delete`. -/
def mediaDelete (db : DB) (id : Int) : Except MediaError Unit × DB :=
  match mediaGet db id with
  | .error e => (.error e, db)
  | .ok _ =>
    if (db.media_tags.filter (fun mt => mt.media_id == id)).length == 0 then
      (.ok (), { db with media := db.media.filter (fun m => !(m.id == id)) })
    else (.error .InUse, db)

/-- `Media::insert_tag` (`TagMedia`). -/
def insertTag (db : DB) (media_id tag_id : Int) : Except MediaError Unit × DB :=
  match mediaGet db media_id with
  | .error e => (.error e, db)
  | .ok _ =>
    match tagsGet db tag_id with
    | .error e => (.error (.TagError e), db)
    | .ok _ =>
      match db.media_tags.find? (fun mt => mt.media_id == media_id && mt.tag_id == tag_id) with
      | some _ => (.error .AlreadyTagged, db)
      | none =>
        let row : MediaTag :=
          { id := nextId (db.media_tags.map (·.id)), media_id := media_id, tag_id := tag_id }
        (.ok (), { db with media_tags := db.media_tags ++ [row] })

/-- `Media::list_tags_for_media` (read-only). -/
def listTagsForMedia (db : DB) (media_id : Int) : Except MediaError (List Tag) :=
  if media_id ≤ 0 then .error .InvalidID
  else
    match mediaGet db media_id with
    | .error e => .error e
    | .ok _ =>
      let tag_ids := (db.media_tags.filter (fun mt => mt.media_id == media_id)).map (·.tag_id)
      .ok (db.tags.filter (fun t => tag_ids.contains t.id))

/-- `Media::untag_media`.  The source's delete filter is
`mid.eq(mid)` — the `media_id` column compared with itself, which holds on
every row — conjoined with `tid.eq(tag_id)`, so the delete removes every
association whose `tag_id` matches, for every media. -/
def untagMedia (db : DB) (media_id tag_id : Int) : Except MediaError Unit × DB :=
  match mediaGet db media_id with
  | .error e => (.error e, db)
  | .ok _ =>
    match tagsGet db tag_id with
    | .error e => (.error (.TagError e), db)
    | .ok _ =>
      match listTagsForMedia db media_id with
      | .error e => (.error e, db)
      | .ok tagList =>
        if !(tagList.any (fun t => t.id == tag_id)) then (.error .TagNotFound, db)
        else
          (.ok (),
            { db with
              media_tags := db.media_tags.filter (fun mt =>
                !(mt.media_id == mt.media_id && mt.tag_id == tag_id)) })

/-- The `media_tags` rows whose `tag_id` is among the requested ids —
the `filter(tid.eq_any(&tag_ids))` part of the intersection query. -/
def mtMatching (db : DB) (tag_ids : List Int) : List MediaTag :=
  db.media_tags.filter (fun mt => tag_ids.contains mt.tag_id)

/-- The `group_by(media_id).having(count_distinct(tid).eq(len)).distinct()`
part of the intersection query: the distinct `media_id`s whose group
carries as many distinct matching tag ids as there are requested tags. -/
def mtQualifyingIds (db : DB) (tag_ids : List Int) : List Int :=
  ((mtMatching db tag_ids).map (·.media_id)).dedup.filter (fun m =>
    (((mtMatching db tag_ids).filter (fun mt => mt.media_id == m)).map
        (·.tag_id)).dedup.length == tag_ids.length)

/-- `Media::list_media_from_tags`: sort + dedup the input; empty input is
`NoTagsProvided`; otherwise the group-by/having-count-distinct query over
`media_tags`, then the media rows with those ids. -/
def listMediaFromTags (db : DB) (tagsIn : List Int) :
    Except MediaError (List MediaFile) :=
  let tag_ids := rustDedup (sortLe (fun a b => decide (a ≤ b)) tagsIn)
  if tag_ids.isEmpty then .error .NoTagsProvided
  else .ok (db.media.filter (fun mf => (mtQualifyingIds db tag_ids).contains mf.id))

/-! ## Concrete fixtures used by witnesses and counterexamples -/

/-- A media row with the given id and relative path under base path 1. -/
def mkMediaRow (i : Int) (rp : String) : MediaFile :=
  { id := i, relative_path := rp, base_path_id := 1, width := none, height := none,
    size := 1, mark := none, description := "", media_type := .Image }

/-- A store for the C1 example: M1 tagged {T1,T2}, M2 tagged {T1},
M3 tagged {T1,T2,T3}. -/
def dbC1 : DB :=
  { base_paths := [{ id := 1, base_path := "/a", description := "" }]
    tag_categories := [{ id := 1, name := "cat", color := "aabbcc", description := "" }]
    tags := [{ id := 1, name := "t1", category_id := 1, description := "" },
             { id := 2, name := "t2", category_id := 1, description := "" },
             { id := 3, name := "t3", category_id := 1, description := "" }]
    media := [mkMediaRow 1 "m1", mkMediaRow 2 "m2", mkMediaRow 3 "m3"]
    media_tags := [⟨1, 1, 1⟩, ⟨2, 1, 2⟩, ⟨3, 2, 1⟩, ⟨4, 3, 1⟩, ⟨5, 3, 2⟩, ⟨6, 3, 3⟩] }

/-- A store with two media files both tagged with tag 1. -/
def dbC2 : DB :=
  { base_paths := [{ id := 1, base_path := "/a", description := "" }]
    tag_categories := [{ id := 1, name := "cat", color := "aabbcc", description := "" }]
    tags := [{ id := 1, name := "t1", category_id := 1, description := "" }]
    media := [mkMediaRow 1 "m1", mkMediaRow 2 "m2"]
    media_tags := [⟨1, 1, 1⟩, ⟨2, 2, 1⟩] }

/-- A filesystem on which `/a/b` and `/a/b/c` are existing directories. -/
def fsC3 : FS :=
  { pathExists := fun p => p == "/a/b" || p == "/a/b/c"
    isDir := fun p => p == "/a/b" || p == "/a/b/c" }

/-- A store where `/a/b/c` is already registered. -/
def dbC3 : DB :=
  { base_paths := [{ id := 1, base_path := "/a/b/c", description := "" }]
    tag_categories := [], tags := [], media := [], media_tags := [] }

/-- A store where `/a/b` is already registered. -/
def dbC3b : DB :=
  { base_paths := [{ id := 1, base_path := "/a/b", description := "" }]
    tag_categories := [], tags := [], media := [], media_tags := [] }

/-- A store with one category and one tag, for the no-op update. -/
def dbC4 : DB :=
  { base_paths := []
    tag_categories := [{ id := 1, name := "cat", color := "aabbcc", description := "" }]
    tags := [{ id := 1, name := "a", category_id := 1, description := "" }]
    media := [], media_tags := [] }

/-- A store with one base path, id 1. -/
def dbC5 : DB :=
  { base_paths := [{ id := 1, base_path := "/a", description := "" }]
    tag_categories := [], tags := [], media := [], media_tags := [] }

/-- 151 copies of the two-byte character `é`: 151 characters, 302 UTF-8
bytes, no surrounding whitespace. -/
def sC5 : String := String.mk (List.replicate 151 'é')

/-! ## Claims -/

/-- C8: deserializing "image", "video", "sound" yields `Image`, `Video`,
`Sound`; serializing each of those yields the same string back, and
serialize-then-deserialize is the identity on them; any other string
deserializes to `Unknown`; `Unknown` serializes to the empty string, so
`Unknown` round-trips to `Unknown` while an unrecognized original string
is lost. -/
theorem mediaType_string_roundtrip :
    stringToMediaType "image" = .Image ∧
    stringToMediaType "video" = .Video ∧
    stringToMediaType "sound" = .Sound ∧
    mediaTypeToString .Image = "image" ∧
    mediaTypeToString .Video = "video" ∧
    mediaTypeToString .Sound = "sound" ∧
    (∀ t : MediaType, t ≠ .Unknown → stringToMediaType (mediaTypeToString t) = t) ∧
    (∀ s : String, s ≠ "image" → s ≠ "video" → s ≠ "sound" →
      stringToMediaType s = .Unknown) ∧
    mediaTypeToString .Unknown = "" ∧
    stringToMediaType (mediaTypeToString .Unknown) = .Unknown := by
  refine ⟨by decide, by decide, by decide, rfl, rfl, rfl, ?_, ?_, rfl, by decide⟩
  · intro t ht
    cases t
    · exact absurd rfl ht
    · decide
    · decide
    · decide
  · intro s h1 h2 h3
    simp [stringToMediaType, h1, h2, h3]

/-- C8 witness: an unrecognized string deserializes to `Unknown`. -/
theorem mediaType_string_roundtrip_example : stringToMediaType "gif" = .Unknown :=
  mediaType_string_roundtrip.2.2.2.2.2.2.2.1 "gif" (by decide) (by decide) (by decide)

/-- C2: the claim says `UntagMedia(1, 1)` removes exactly the association
`(1, 1)` and leaves `(2, 1)` in place.  The code's delete filter compares
the `media_id` column with itself, so on `dbC2` — where media 1 and
media 2 are both tagged with tag 1 — untagging media 1 succeeds but
deletes both association rows, emptying `media_tags`. -/
theorem untagMedia_deletes_other_media_association :
    (untagMedia dbC2 1 1).1 = Except.ok () ∧
    MediaTag.mk 2 2 1 ∈ dbC2.media_tags ∧
    (untagMedia dbC2 1 1).2.media_tags = [] := by decide

/-- C4: the claim says `Update` with an all-`None` patch succeeds and
changes nothing; on `dbC4` (one existing tag, well-formed) the code
instead fails with `AlreadyExists`, because the uniqueness scan matches
the updated row itself. -/
theorem tagsUpdate_all_none_already_exists :
    tagsUpdate dbC4 1 { name := none, category_id := none, description := none } =
      (Except.error TagsError.AlreadyExists, dbC4) := by decide

/-- C3 counterexample: with `/a/b/c` registered, creating `/a/b` — whose
string is a prefix of the registered path — is accepted, not rejected:
the code checks containment in one direction only. -/
theorem basePathsCreate_reverse_containment_accepted :
    strStartsWith "/a/b/c" "/a/b" = true ∧
    dbC3.base_paths = [{ id := 1, base_path := "/a/b/c", description := "" }] ∧
    (basePathsCreate fsC3 dbC3 "/a/b" "").1 =
      Except.ok { id := 2, base_path := "/a/b", description := "" } := by decide

/-- C5 counterexample: on `dbC5`, updating base path 1's description to
151 copies of `é` — 151 characters, within the claimed 300-character
limit — is rejected with `DescriptionTooLong`, because the code measures
the limit in UTF-8 bytes (302 here). -/
theorem updateDescription_counts_bytes_not_chars :
    sC5.length = 151 ∧ rustTrim sC5 = sC5 ∧ strBytes sC5 = 302 ∧
    (basePathsUpdateDescription dbC5 1 sC5).1 =
      Except.error BpError.DescriptionTooLong := by
  set_option maxRecDepth 40000 in decide

/-! ### Lemmas about `basePathsGet` and the containment scan -/

theorem basePathsGet_ok_iff (db : DB) (id : Int) (bp : BasePath) :
    basePathsGet db id = .ok bp ↔
      0 < id ∧ db.base_paths.find? (fun x => x.id == id) = some bp := by
  unfold basePathsGet
  by_cases h : id ≤ 0
  · rw [if_pos h]
    simp [not_lt.mpr h]
  · rw [if_neg h]
    cases hf : db.base_paths.find? (fun x => x.id == id) with
    | none => simp [hf, lt_of_not_le h]
    | some b => simp [hf, lt_of_not_le h]

theorem basePathsGet_nonpos (db : DB) (id : Int) (h : id ≤ 0) :
    basePathsGet db id = .error .InvalidID := by
  unfold basePathsGet
  rw [if_pos h]

theorem basePathsList_none (db : DB) :
    basePathsList db none = sortLe (fun a b => decide (a.id ≤ b.id)) db.base_paths := rfl

theorem scanContainment_isSubPath (l : List BasePath) (bp : String)
    (hne : ∀ q ∈ l, q.base_path ≠ bp)
    (hpre : ∃ p ∈ l, strStartsWith bp p.base_path = true) :
    scanContainment l bp = some .IsSubPath := by
  induction l with
  | nil => simp at hpre
  | cons a as ih =>
    have ha : (a.base_path == bp) = false :=
      beq_eq_false_iff_ne.mpr (hne a (List.mem_cons_self a as))
    unfold scanContainment
    rw [ha]
    simp only [Bool.false_eq_true, if_false]
    by_cases hs : strStartsWith bp a.base_path = true
    · rw [if_pos hs]
    · rw [if_neg hs]
      rcases hpre with ⟨p, hp, hps⟩
      rcases List.mem_cons.mp hp with heq | hp'
      · exact absurd (heq ▸ hps) hs
      · exact ih (fun q hq => hne q (List.mem_cons_of_mem a hq)) ⟨p, hp', hps⟩

theorem scanContainment_none (l : List BasePath) (bp : String)
    (hne : ∀ q ∈ l, q.base_path ≠ bp)
    (hpre : ∀ p ∈ l, strStartsWith bp p.base_path = false) :
    scanContainment l bp = none := by
  induction l with
  | nil => rfl
  | cons a as ih =>
    have ha : (a.base_path == bp) = false :=
      beq_eq_false_iff_ne.mpr (hne a (List.mem_cons_self a as))
    unfold scanContainment
    rw [ha, hpre a (List.mem_cons_self a as)]
    simp only [Bool.false_eq_true, if_false]
    exact ih (fun q hq => hne q (List.mem_cons_of_mem a hq))
      (fun p hp => hpre p (List.mem_cons_of_mem a hp))

/-- C3 (amended): the containment check is one-directional.  For a
trimmed path that passes the emptiness, description, filesystem and
absoluteness checks and matches no registered path exactly, Create fails
with IsSubPath precisely when some registered path is a string prefix of
the new path; when no registered path is a prefix of it the create
succeeds — even if the new path is itself a prefix of a registered path
(so registering `/a/b` then `/a/b/c` fails, but `/a/b/c` then `/a/b`
succeeds). -/
theorem basePathsCreate_one_directional_containment (fs : FS) (db : DB)
    (path description : String)
    (h0 : strBytes (trimEndSlashes (rustTrim path)) ≠ 0)
    (hdesc : graphemeCount (rustTrim description) ≤ 300)
    (hex : fs.pathExists (trimEndSlashes (rustTrim path)) = true)
    (hdir : fs.isDir (trimEndSlashes (rustTrim path)) = true)
    (habs : strStartsWith (trimEndSlashes (rustTrim path)) "/" = true)
    (hne : ∀ q ∈ db.base_paths, q.base_path ≠ trimEndSlashes (rustTrim path)) :
    ((∃ p ∈ db.base_paths,
        strStartsWith (trimEndSlashes (rustTrim path)) p.base_path = true) →
      (basePathsCreate fs db path description).1 = .error .IsSubPath) ∧
    ((∀ p ∈ db.base_paths,
        strStartsWith (trimEndSlashes (rustTrim path)) p.base_path = false) →
      ∃ r, (basePathsCreate fs db path description).1 = .ok r ∧
        r.base_path = trimEndSlashes (rustTrim path)) := by
  have hc1 : (strBytes (trimEndSlashes (rustTrim path)) == 0) = false :=
    beq_eq_false_iff_ne.mpr h0
  have hmem : ∀ q, q ∈ basePathsList db none ↔ q ∈ db.base_paths := by
    intro q
    rw [basePathsList_none]
    exact mem_sortLe _ _ q
  have hne' : ∀ q ∈ basePathsList db none,
      q.base_path ≠ trimEndSlashes (rustTrim path) :=
    fun q hq => hne q ((hmem q).mp hq)
  constructor
  · intro hpre
    have hscan := scanContainment_isSubPath (basePathsList db none)
      (trimEndSlashes (rustTrim path)) hne'
      (by rcases hpre with ⟨p, hp, hps⟩; exact ⟨p, (hmem p).mpr hp, hps⟩)
    unfold basePathsCreate
    simp only [hc1, Bool.false_eq_true, if_false, if_neg (not_lt.mpr hdesc),
      hex, hdir, habs, Bool.not_true, hscan]
  · intro hpre
    have hscan := scanContainment_none (basePathsList db none)
      (trimEndSlashes (rustTrim path)) hne'
      (fun p hp => hpre p ((hmem p).mp hp))
    refine ⟨{ id := nextId (db.base_paths.map (·.id)),
              base_path := trimEndSlashes (rustTrim path),
              description := rustTrim description }, ?_, rfl⟩
    unfold basePathsCreate
    simp only [hc1, Bool.false_eq_true, if_false, if_neg (not_lt.mpr hdesc),
      hex, hdir, habs, Bool.not_true, hscan]

/-- C3 (amended) witness: on `dbC3b`, where `/a/b` is registered,
creating `/a/b/c` fails with `IsSubPath` (the direction the code does
check). -/
theorem basePathsCreate_one_directional_containment_example :
    (basePathsCreate fsC3 dbC3b "/a/b/c" "").1 = .error .IsSubPath :=
  (basePathsCreate_one_directional_containment fsC3 dbC3b "/a/b/c" ""
      (by decide) (by decide) (by decide) (by decide) (by decide) (by decide)).1
    ⟨{ id := 1, base_path := "/a/b", description := "" }, by decide, by decide⟩

/-! ### Lemmas for `basePathsUpdateDescription` -/

theorem find?_id_map_description (l : List BasePath) (id : Int) (nd : String)
    (bp : BasePath) (h : l.find? (fun x => x.id == id) = some bp) :
    (l.map (fun x => if x.id == id then { x with description := nd } else x)).find?
        (fun x => x.id == id) = some { bp with description := nd } := by
  induction l with
  | nil => simp at h
  | cons a as ih =>
    by_cases ha : (a.id == id) = true
    · rw [List.find?_cons_of_pos as ha] at h
      injection h with h'
      subst h'
      simp only [List.map_cons, if_pos ha]
      exact List.find?_cons_of_pos _ ha
    · rw [List.find?_cons_of_neg as ha] at h
      simp only [List.map_cons, if_neg ha]
      exact (List.find?_cons_of_neg (p := fun x : BasePath => x.id == id) _ ha).trans (ih h)

/-- C5 (amended): for every existing base path, UpdateDescription trims
the new description and fails with DescriptionTooLong exactly when the
trimmed string's UTF-8 byte length exceeds 300; otherwise it stores the
trimmed description on that base path. -/
theorem basePathsUpdateDescription_byte_limit (db : DB) (id : Int) (d : String)
    (bp : BasePath) (hget : basePathsGet db id = .ok bp) :
    (300 < strBytes (rustTrim d) →
      basePathsUpdateDescription db id d = (.error .DescriptionTooLong, db)) ∧
    (strBytes (rustTrim d) ≤ 300 →
      (basePathsUpdateDescription db id d).1 = .ok () ∧
      basePathsGet (basePathsUpdateDescription db id d).2 id =
        .ok { bp with description := rustTrim d }) := by
  constructor
  · intro hlong
    unfold basePathsUpdateDescription
    rw [hget, if_pos hlong]
  · intro hshort
    have hres : basePathsUpdateDescription db id d =
        (.ok (),
          { db with
            base_paths := db.base_paths.map (fun x =>
              if x.id == id then { x with description := rustTrim d } else x) }) := by
      unfold basePathsUpdateDescription
      rw [hget, if_neg (not_lt.mpr hshort)]
    rcases (basePathsGet_ok_iff db id bp).mp hget with ⟨hpos, hfind⟩
    refine ⟨by rw [hres], ?_⟩
    rw [hres]
    exact (basePathsGet_ok_iff _ id _).mpr
      ⟨hpos, find?_id_map_description db.base_paths id (rustTrim d) bp hfind⟩

/-- C5 (amended) witness: storing a short description on base path 1 of
`dbC5` succeeds and the trimmed text is stored. -/
theorem basePathsUpdateDescription_byte_limit_example :
    (basePathsUpdateDescription dbC5 1 " hi ").1 = .ok () ∧
    basePathsGet (basePathsUpdateDescription dbC5 1 " hi ").2 1 =
      .ok { id := 1, base_path := "/a", description := "hi" } :=
  (basePathsUpdateDescription_byte_limit dbC5 1 " hi "
      { id := 1, base_path := "/a", description := "" } (by decide)).2 (by decide)

/-! ### C10: `Media::create` and `InvalidBasePathID` -/

theorem mediaFileValidate_invalidBasePathID (m : MediaFile)
    (h : mediaFileValidate m = .error .InvalidBasePathID) : m.base_path_id ≤ 0 := by
  by_cases hb : m.base_path_id ≤ 0
  · exact hb
  · exfalso
    unfold mediaFileValidate at h
    rw [if_neg hb] at h
    repeat' split at h
    all_goals simp_all

theorem basePathsGet_ok_pos (db : DB) (id : Int) (bp : BasePath)
    (h : basePathsGet db id = .ok bp) : 0 < id :=
  ((basePathsGet_ok_iff db id bp).mp h).1

/-- C10: `Media::create` can never return `InvalidBasePathID`: the
base-path lookup runs first, so a non-positive `base_path_id` yields
`BasePathsError InvalidID` and a positive but unregistered one yields
`BasePathsError NotFound`; the `base_path_id ≤ 0` branch of the media
validation is unreachable from create. -/
theorem mediaCreate_never_invalid_base_path_id (db : DB) (cd : CreateMediaFile) :
    (mediaCreate db cd).1 ≠ Except.error MediaError.InvalidBasePathID ∧
    (cd.base_path_id ≤ 0 →
      (mediaCreate db cd).1 =
        Except.error (MediaError.BasePathsError BpError.InvalidID)) ∧
    (0 < cd.base_path_id → (∀ b ∈ db.base_paths, b.id ≠ cd.base_path_id) →
      (mediaCreate db cd).1 =
        Except.error (MediaError.BasePathsError BpError.NotFound)) := by
  refine ⟨?_, ?_, ?_⟩
  · unfold mediaCreate
    cases hg : basePathsGet db cd.base_path_id with
    | error e => simp
    | ok bp =>
      have hpos : 0 < cd.base_path_id := basePathsGet_ok_pos db _ bp hg
      cases hv : mediaFileValidate (mediaFileFromCreate cd) with
      | error e =>
        simp only [ne_eq, Except.error.injEq]
        intro hbad
        subst hbad
        exact absurd hpos (not_lt.mpr (mediaFileValidate_invalidBasePathID _ hv))
      | ok d =>
        dsimp only
        cases hf : db.media.find? (fun m =>
            m.base_path_id == d.base_path_id && m.relative_path == d.relative_path) with
        | some x => simp
        | none => simp
  · intro hle
    unfold mediaCreate
    rw [basePathsGet_nonpos db _ hle]
  · intro hpos hmiss
    have hg : basePathsGet db cd.base_path_id = .error .NotFound := by
      unfold basePathsGet
      rw [if_neg (not_le.mpr hpos)]
      rw [List.find?_eq_none.mpr (fun b hb => by
        simp only [beq_iff_eq]
        exact hmiss b hb)]
    unfold mediaCreate
    rw [hg]

/-- C10 witness: on the empty store, creating with `base_path_id = 0`
fails with `BasePathsError InvalidID`. -/
theorem mediaCreate_never_invalid_base_path_id_example :
    (mediaCreate
        { base_paths := [], tag_categories := [], tags := [], media := [], media_tags := [] }
        { relative_path := "x", base_path_id := 0, width := none, height := none,
          size := 1, mark := none, description := "", media_type := .Image }).1 =
      Except.error (MediaError.BasePathsError BpError.InvalidID) :=
  (mediaCreate_never_invalid_base_path_id _ _).2.1 (by decide)

/-! ### C7: `Media::list` ignores the base path filter -/

/-- C7: `Media::list(base_path_id)` propagates the base-path registry's
error when the id does not resolve, and otherwise returns all media rows
in the store — a permutation of the whole `media` table, not filtered by
`base_path_id` — sorted by id ascending. -/
theorem mediaList_returns_all_media (db : DB) (base_path_id : Int) :
    (∀ e, basePathsGet db base_path_id = .error e →
      mediaList db base_path_id = .error (.BasePathsError e)) ∧
    (∀ b, basePathsGet db base_path_id = .ok b →
      ∃ out, mediaList db base_path_id = .ok out ∧
        List.Perm out db.media ∧
        out.Pairwise (fun x y => x.id ≤ y.id)) := by
  constructor
  · intro e hg
    unfold mediaList
    rw [hg]
  · intro b hg
    refine ⟨_, by unfold mediaList; rw [hg], sortLe_perm _ _, ?_⟩
    have hp := sortLe_pairwise (fun a b : MediaFile => decide (a.id ≤ b.id))
      (fun a b => by
        rcases Int.le_total a.id b.id with h | h
        · exact Or.inl (decide_eq_true h)
        · exact Or.inr (decide_eq_true h))
      (fun a b c hab hbc =>
        decide_eq_true (le_trans (of_decide_eq_true hab) (of_decide_eq_true hbc)))
      db.media
    exact hp.imp (fun h => of_decide_eq_true h)

/-- A store whose two media rows belong to different base paths. -/
def dbC7 : DB :=
  { base_paths := [{ id := 1, base_path := "/a", description := "" },
                   { id := 2, base_path := "/b", description := "" }]
    tag_categories := [], tags := []
    media := [mkMediaRow 2 "m2", { mkMediaRow 1 "m1" with base_path_id := 2 }]
    media_tags := [] }

/-- C7 witness: listing by base path 1 on `dbC7` returns both media rows
(also the one under base path 2), sorted by id. -/
theorem mediaList_returns_all_media_example :
    ∃ out, mediaList dbC7 1 = .ok out ∧
      List.Perm out dbC7.media ∧
      out.Pairwise (fun x y => x.id ≤ y.id) :=
  (mediaList_returns_all_media dbC7 1).2
    { id := 1, base_path := "/a", description := "" } (by decide)

/-! ### C9: length units of the tag and category validators -/

theorem tagValidate_nameTooLong (db : DB) (t : Tag)
    (hcat : 0 < t.category_id) (hc : ∃ c, categoriesGet db t.category_id = .ok c)
    (hlen : 50 < strBytes t.name) :
    tagValidate db t = .error .NameTooLong := by
  obtain ⟨c, hc⟩ := hc
  have h0 : (strBytes t.name == 0) = false :=
    beq_eq_false_iff_ne.mpr (Nat.pos_iff_ne_zero.mp (lt_trans (by norm_num) hlen))
  unfold tagValidate
  rw [if_neg (not_le.mpr hcat), hc]
  dsimp only
  simp only [h0, Bool.false_eq_true, if_false]
  rw [if_pos hlen]

theorem tagValidate_descTooLong (db : DB) (t : Tag)
    (hcat : 0 < t.category_id) (hc : ∃ c, categoriesGet db t.category_id = .ok c)
    (hn0 : 0 < strBytes t.name) (hn : strBytes t.name ≤ 50)
    (hd : 300 < strBytes t.description) :
    tagValidate db t = .error .DescriptionTooLong := by
  obtain ⟨c, hc⟩ := hc
  have h0 : (strBytes t.name == 0) = false :=
    beq_eq_false_iff_ne.mpr (Nat.pos_iff_ne_zero.mp hn0)
  unfold tagValidate
  rw [if_neg (not_le.mpr hcat), hc]
  dsimp only
  simp only [h0, Bool.false_eq_true, if_false, if_neg (not_lt.mpr hn)]
  rw [if_pos hd]

theorem categoryValidate_nameTooLong_iff (c : Category) (h0 : 0 < strBytes c.name) :
    categoryValidate c = .error .NameTooLong ↔ 50 < graphemeCount c.name := by
  have hb : (strBytes c.name == 0) = false :=
    beq_eq_false_iff_ne.mpr (Nat.pos_iff_ne_zero.mp h0)
  unfold categoryValidate
  simp only [hb, Bool.false_eq_true, if_false]
  by_cases hn : 50 < graphemeCount c.name
  · rw [if_pos hn]
    simp [hn]
  · rw [if_neg hn]
    constructor
    · intro hcontra
      split at hcontra
      · simp at hcontra
      · split at hcontra <;> simp at hcontra
    · intro hcontra
      exact absurd hcontra hn

theorem categoryValidate_descTooLong_iff (c : Category) (h0 : 0 < strBytes c.name)
    (hn : graphemeCount c.name ≤ 50) :
    categoryValidate c = .error .DescriptionTooLong ↔
      300 < graphemeCount c.description := by
  have hb : (strBytes c.name == 0) = false :=
    beq_eq_false_iff_ne.mpr (Nat.pos_iff_ne_zero.mp h0)
  unfold categoryValidate
  simp only [hb, Bool.false_eq_true, if_false, if_neg (not_lt.mpr hn)]
  by_cases hd : 300 < graphemeCount c.description
  · rw [if_pos hd]
    simp [hd]
  · rw [if_neg hd]
    constructor
    · intro hcontra
      split at hcontra <;> simp at hcontra
    · intro hcontra
      exact absurd hcontra hd

/-- C9: the tag registry measures its name (50) and description (300)
limits in UTF-8 bytes — any create or update whose merged, trimmed name
or description exceeds the limit in bytes is rejected with
NameTooLong/DescriptionTooLong regardless of its grapheme count — while
the category registry measures the same limits in grapheme clusters. -/
theorem tag_limits_bytes_category_limits_graphemes (db : DB) :
    (∀ data : CreateTag,
      0 < data.category_id →
      (∃ c, categoriesGet db data.category_id = .ok c) →
      50 < strBytes (rustTrim data.name) →
      (tagsCreate db data).1 = .error .NameTooLong) ∧
    (∀ data : CreateTag,
      0 < data.category_id →
      (∃ c, categoriesGet db data.category_id = .ok c) →
      0 < strBytes (rustTrim data.name) → strBytes (rustTrim data.name) ≤ 50 →
      300 < strBytes (rustTrim data.description) →
      (tagsCreate db data).1 = .error .DescriptionTooLong) ∧
    (∀ (id : Int) (nd : UpdateTag) (t : Tag),
      tagsGet db id = .ok t →
      0 < (tagWithNewData t nd).category_id →
      (∃ c, categoriesGet db (tagWithNewData t nd).category_id = .ok c) →
      50 < strBytes (rustTrim (tagWithNewData t nd).name) →
      (tagsUpdate db id nd).1 = .error .NameTooLong) ∧
    (∀ (id : Int) (nd : UpdateTag) (t : Tag),
      tagsGet db id = .ok t →
      0 < (tagWithNewData t nd).category_id →
      (∃ c, categoriesGet db (tagWithNewData t nd).category_id = .ok c) →
      0 < strBytes (rustTrim (tagWithNewData t nd).name) →
      strBytes (rustTrim (tagWithNewData t nd).name) ≤ 50 →
      300 < strBytes (rustTrim (tagWithNewData t nd).description) →
      (tagsUpdate db id nd).1 = .error .DescriptionTooLong) ∧
    (∀ c : Category, 0 < strBytes c.name →
      (categoryValidate c = .error .NameTooLong ↔ 50 < graphemeCount c.name)) ∧
    (∀ c : Category, 0 < strBytes c.name → graphemeCount c.name ≤ 50 →
      (categoryValidate c = .error .DescriptionTooLong ↔
        300 < graphemeCount c.description)) := by
  refine ⟨?_, ?_, ?_, ?_, ?_, ?_⟩
  · intro data hcat hc hlen
    have hval : tagValidate db (tagClean (createTagToTag data)) = .error .NameTooLong :=
      tagValidate_nameTooLong db _ hcat hc hlen
    unfold tagsCreate
    rw [hval]
  · intro data hcat hc hn0 hn hd
    have hval : tagValidate db (tagClean (createTagToTag data)) =
        .error .DescriptionTooLong :=
      tagValidate_descTooLong db _ hcat hc hn0 hn hd
    unfold tagsCreate
    rw [hval]
  · intro id nd t hgt hcat hc hlen
    have hval : tagValidate db (tagClean (tagWithNewData t nd)) = .error .NameTooLong :=
      tagValidate_nameTooLong db _ hcat hc hlen
    unfold tagsUpdate
    rw [hgt]
    dsimp only
    rw [hval]
  · intro id nd t hgt hcat hc hn0 hn hd
    have hval : tagValidate db (tagClean (tagWithNewData t nd)) =
        .error .DescriptionTooLong :=
      tagValidate_descTooLong db _ hcat hc hn0 hn hd
    unfold tagsUpdate
    rw [hgt]
    dsimp only
    rw [hval]
  · exact categoryValidate_nameTooLong_iff
  · exact categoryValidate_descTooLong_iff

/-- A store with a single tag category, id 1. -/
def dbC9 : DB :=
  { base_paths := []
    tag_categories := [{ id := 1, name := "cat", color := "aabbcc", description := "" }]
    tags := [], media := [], media_tags := [] }

/-- 26 copies of the two-byte character `é`: 26 characters/graphemes but
52 UTF-8 bytes. -/
def nameC9 : String := String.mk (List.replicate 26 'é')

/-- C9 witness: the 26-grapheme, 52-byte name is rejected by the tag
registry with NameTooLong, while the category validator does not reject
the very same name. -/
theorem tag_limits_bytes_category_limits_graphemes_example :
    (tagsCreate dbC9 { name := nameC9, category_id := 1, description := "" }).1 =
      Except.error TagsError.NameTooLong ∧
    categoryValidate { id := 1, name := nameC9, color := "aabbcc", description := "" } ≠
      Except.error CatError.NameTooLong := by
  constructor
  · exact (tag_limits_bytes_category_limits_graphemes dbC9).1 _ (by decide)
      ⟨{ id := 1, name := "cat", color := "aabbcc", description := "" }, by decide⟩
      (by decide)
  · intro h
    have hgc := ((tag_limits_bytes_category_limits_graphemes dbC9).2.2.2.2.1
      { id := 1, name := nameC9, color := "aabbcc", description := "" } (by decide)).mp h
    exact absurd hgc (by decide)

/-! ### C6: validation errors change no state

One frame lemma per state-changing operation: whenever the operation
returns an error, the state it returns is the input state (in the source,
every error return happens before the single insert/update/delete of the
operation). -/

theorem basePathsCreate_error_frame (fs : FS) (db : DB) (p d : String) (e : BpError)
    (db' : DB) (h : basePathsCreate fs db p d = (.error e, db')) : db' = db := by
  unfold basePathsCreate at h
  try dsimp only at h
  repeat' split at h
  all_goals (injection h with h1 h2; first | exact h2.symm | injection h1)

theorem basePathsUpdateDescription_error_frame (db : DB) (i : Int) (d : String)
    (e : BpError) (db' : DB)
    (h : basePathsUpdateDescription db i d = (.error e, db')) : db' = db := by
  unfold basePathsUpdateDescription at h
  try dsimp only at h
  repeat' split at h
  all_goals (injection h with h1 h2; first | exact h2.symm | injection h1)

theorem basePathsDelete_error_frame (db : DB) (i : Int) (e : BpError) (db' : DB)
    (h : basePathsDelete db i = (.error e, db')) : db' = db := by
  unfold basePathsDelete at h
  try dsimp only at h
  repeat' split at h
  all_goals (injection h with h1 h2; first | exact h2.symm | injection h1)

theorem categoriesUpdate_error_frame (db : DB) (i : Int) (nd : UpdateTagCategory)
    (e : CatError) (db' : DB)
    (h : categoriesUpdate db i nd = (.error e, db')) : db' = db := by
  unfold categoriesUpdate at h
  try dsimp only at h
  repeat' split at h
  all_goals (injection h with h1 h2; first | exact h2.symm | injection h1)

theorem categoriesDelete_error_frame (db : DB) (i : Int) (e : CatError) (db' : DB)
    (h : categoriesDelete db i = (.error e, db')) : db' = db := by
  unfold categoriesDelete at h
  try dsimp only at h
  repeat' split at h
  all_goals (injection h with h1 h2; first | exact h2.symm | injection h1)

theorem tagsCreate_error_frame (db : DB) (data : CreateTag) (e : TagsError) (db' : DB)
    (h : tagsCreate db data = (.error e, db')) : db' = db := by
  unfold tagsCreate at h
  try dsimp only at h
  repeat' split at h
  all_goals (injection h with h1 h2; first | exact h2.symm | injection h1)

theorem tagsUpdate_error_frame (db : DB) (i : Int) (nd : UpdateTag) (e : TagsError)
    (db' : DB) (h : tagsUpdate db i nd = (.error e, db')) : db' = db := by
  unfold tagsUpdate at h
  try dsimp only at h
  repeat' split at h
  all_goals (injection h with h1 h2; first | exact h2.symm | injection h1)

theorem tagsDelete_error_frame (db : DB) (i : Int) (e : TagsError) (db' : DB)
    (h : tagsDelete db i = (.error e, db')) : db' = db := by
  unfold tagsDelete at h
  try dsimp only at h
  repeat' split at h
  all_goals (injection h with h1 h2; first | exact h2.symm | injection h1)

theorem mediaCreate_error_frame (db : DB) (cd : CreateMediaFile) (e : MediaError)
    (db' : DB) (h : mediaCreate db cd = (.error e, db')) : db' = db := by
  unfold mediaCreate at h
  try dsimp only at h
  repeat' split at h
  all_goals (injection h with h1 h2; first | exact h2.symm | injection h1)

theorem mediaUpdate_error_frame (db : DB) (i : Int) (nd : UpdateMediaFile)
    (e : MediaError) (db' : DB)
    (h : mediaUpdate db i nd = (.error e, db')) : db' = db := by
  unfold mediaUpdate at h
  try dsimp only at h
  repeat' split at h
  all_goals (injection h with h1 h2; first | exact h2.symm | injection h1)

theorem mediaDelete_error_frame (db : DB) (i : Int) (e : MediaError) (db' : DB)
    (h : mediaDelete db i = (.error e, db')) : db' = db := by
  unfold mediaDelete at h
  try dsimp only at h
  repeat' split at h
  all_goals (injection h with h1 h2; first | exact h2.symm | injection h1)

theorem insertTag_error_frame (db : DB) (m t : Int) (e : MediaError) (db' : DB)
    (h : insertTag db m t = (.error e, db')) : db' = db := by
  unfold insertTag at h
  try dsimp only at h
  repeat' split at h
  all_goals (injection h with h1 h2; first | exact h2.symm | injection h1)

theorem untagMedia_error_frame (db : DB) (m t : Int) (e : MediaError) (db' : DB)
    (h : untagMedia db m t = (.error e, db')) : db' = db := by
  unfold untagMedia at h
  try dsimp only at h
  repeat' split at h
  all_goals (injection h with h1 h2; first | exact h2.symm | injection h1)

/-- The input-validation errors of the base-path registry: invalid id,
empty path, too-long description. -/
def BpError.isValidation : BpError → Bool
  | .InvalidID => true
  | .InvalidPath => true
  | .DescriptionTooLong => true
  | _ => false

/-- The input-validation errors of the category registry: invalid id,
empty/too-long strings, malformed color, too-short search prefixes. -/
def CatError.isValidation : CatError → Bool
  | .InvalidID => true
  | .InvalidName => true
  | .NameTooLong => true
  | .DescriptionTooLong => true
  | .InvalidColor => true
  | .NameToSearchTooShort => true
  | _ => false

/-- The input-validation errors of the tag registry. -/
def TagsError.isValidation : TagsError → Bool
  | .InvalidID => true
  | .InvalidCategoryID => true
  | .InvalidName => true
  | .NameTooLong => true
  | .DescriptionTooLong => true
  | .CategoryError e => e.isValidation
  | _ => false

/-- The input-validation errors of the media catalog, including wrapped
validation errors of the registries it consults. -/
def MediaError.isValidation : MediaError → Bool
  | .InvalidID => true
  | .InvalidRelativePath => true
  | .InvalidBasePathID => true
  | .InvalidWidth => true
  | .InvalidHeight => true
  | .InvalidSize => true
  | .InvalidMark => true
  | .DescriptionTooLong => true
  | .BasePathsError e => e.isValidation
  | .TagError e => e.isValidation
  | _ => false

/-- C6: whenever any state-changing operation of any registry returns an
input-validation error, the store is exactly what it was before the call.
(The search operations are SELECT-only by construction and take no state
in or out.) -/
theorem validation_error_leaves_state_unchanged (fs : FS) (db : DB) :
    (∀ p d e db', basePathsCreate fs db p d = (.error e, db') →
      e.isValidation = true → db' = db) ∧
    (∀ i d e db', basePathsUpdateDescription db i d = (.error e, db') →
      e.isValidation = true → db' = db) ∧
    (∀ i e db', basePathsDelete db i = (.error e, db') →
      e.isValidation = true → db' = db) ∧
    (∀ i nd e db', categoriesUpdate db i nd = (.error e, db') →
      e.isValidation = true → db' = db) ∧
    (∀ i e db', categoriesDelete db i = (.error e, db') →
      e.isValidation = true → db' = db) ∧
    (∀ data e db', tagsCreate db data = (.error e, db') →
      e.isValidation = true → db' = db) ∧
    (∀ i nd e db', tagsUpdate db i nd = (.error e, db') →
      e.isValidation = true → db' = db) ∧
    (∀ i e db', tagsDelete db i = (.error e, db') →
      e.isValidation = true → db' = db) ∧
    (∀ cd e db', mediaCreate db cd = (.error e, db') →
      e.isValidation = true → db' = db) ∧
    (∀ i nd e db', mediaUpdate db i nd = (.error e, db') →
      e.isValidation = true → db' = db) ∧
    (∀ i e db', mediaDelete db i = (.error e, db') →
      e.isValidation = true → db' = db) ∧
    (∀ m t e db', insertTag db m t = (.error e, db') →
      e.isValidation = true → db' = db) ∧
    (∀ m t e db', untagMedia db m t = (.error e, db') →
      e.isValidation = true → db' = db) :=
  ⟨fun p d e db' h _ => basePathsCreate_error_frame fs db p d e db' h,
   fun i d e db' h _ => basePathsUpdateDescription_error_frame db i d e db' h,
   fun i e db' h _ => basePathsDelete_error_frame db i e db' h,
   fun i nd e db' h _ => categoriesUpdate_error_frame db i nd e db' h,
   fun i e db' h _ => categoriesDelete_error_frame db i e db' h,
   fun data e db' h _ => tagsCreate_error_frame db data e db' h,
   fun i nd e db' h _ => tagsUpdate_error_frame db i nd e db' h,
   fun i e db' h _ => tagsDelete_error_frame db i e db' h,
   fun cd e db' h _ => mediaCreate_error_frame db cd e db' h,
   fun i nd e db' h _ => mediaUpdate_error_frame db i nd e db' h,
   fun i e db' h _ => mediaDelete_error_frame db i e db' h,
   fun m t e db' h _ => insertTag_error_frame db m t e db' h,
   fun m t e db' h _ => untagMedia_error_frame db m t e db' h⟩

/-- A filesystem with nothing on it. -/
def fsC6 : FS := { pathExists := fun _ => false, isDir := fun _ => false }

/-- C6 witness: updating the description of base path id 0 on `dbC5`
fails with the validation error `InvalidID` and leaves the store exactly
as it was. -/
theorem validation_error_leaves_state_unchanged_example :
    (basePathsUpdateDescription dbC5 0 "x").2 = dbC5 :=
  (validation_error_leaves_state_unchanged fsC6 dbC5).2.1 0 "x" BpError.InvalidID
    (basePathsUpdateDescription dbC5 0 "x").2 (by decide) (by decide)

/-! ### C1: the multi-tag intersection query -/

theorem contains_iff_mem (l : List Int) (a : Int) : l.contains a = true ↔ a ∈ l :=
  List.elem_iff

/-- Membership in one tag group of the intersection query: `x` is among
the distinct tag ids counted for media `m` iff `x` is a requested tag and
an association row `(m, x)` exists. -/
theorem mem_group_iff (db : DB) (T : List Int) (m x : Int) :
    x ∈ ((mtMatching db T).filter (fun mt => mt.media_id == m)).map (·.tag_id) ↔
      x ∈ T ∧ ∃ mt ∈ db.media_tags, mt.media_id = m ∧ mt.tag_id = x := by
  simp only [List.mem_map, List.mem_filter, mtMatching, beq_iff_eq]
  constructor
  · rintro ⟨mt, ⟨⟨hmem, hcont⟩, hmid⟩, rfl⟩
    exact ⟨(contains_iff_mem T mt.tag_id).mp hcont, mt, hmem, hmid, rfl⟩
  · rintro ⟨hxT, mt, hmem, hmid, rfl⟩
    exact ⟨mt, ⟨⟨hmem, (contains_iff_mem T mt.tag_id).mpr hxT⟩, hmid⟩, rfl⟩

/-- The having-count-distinct group-by select exactly the media ids that
are associated with every requested tag. -/
theorem mem_mtQualifyingIds (db : DB) (T : List Int) (hnodup : T.Nodup)
    (hne : T ≠ []) (m : Int) :
    m ∈ mtQualifyingIds db T ↔
      ∀ t ∈ T, ∃ mt ∈ db.media_tags, mt.media_id = m ∧ mt.tag_id = t := by
  unfold mtQualifyingIds
  rw [List.mem_filter]
  constructor
  · rintro ⟨hdedup, hcount⟩
    have hcount' :
        (((mtMatching db T).filter (fun mt => mt.media_id == m)).map
          (·.tag_id)).dedup.length = T.length := by
      exact beq_iff_eq.mp hcount
    have hsub :
        (((mtMatching db T).filter (fun mt => mt.media_id == m)).map
          (·.tag_id)).toFinset ⊆ T.toFinset := by
      intro x hx
      rw [List.mem_toFinset] at hx ⊢
      exact ((mem_group_iff db T m x).mp hx).1
    have hcard : T.toFinset.card ≤
        (((mtMatching db T).filter (fun mt => mt.media_id == m)).map
          (·.tag_id)).toFinset.card := by
      rw [List.toFinset_card_of_nodup hnodup, List.card_toFinset, hcount']
    have heq := Finset.eq_of_subset_of_card_le hsub hcard
    intro t ht
    have ht' : t ∈ (((mtMatching db T).filter (fun mt => mt.media_id == m)).map
        (·.tag_id)).toFinset := by
      rw [heq, List.mem_toFinset]
      exact ht
    exact ((mem_group_iff db T m t).mp (List.mem_toFinset.mp ht')).2
  · intro hall
    obtain ⟨t0, ht0⟩ := List.exists_mem_of_ne_nil T hne
    obtain ⟨mt0, hmt0, hmid0, htid0⟩ := hall t0 ht0
    constructor
    · rw [List.mem_dedup, List.mem_map]
      refine ⟨mt0, ?_, hmid0⟩
      rw [mtMatching, List.mem_filter]
      exact ⟨hmt0, (contains_iff_mem T mt0.tag_id).mpr (htid0 ▸ ht0)⟩
    · rw [beq_iff_eq]
      have hmemeq : ∀ x,
          x ∈ (((mtMatching db T).filter (fun mt => mt.media_id == m)).map
            (·.tag_id)) ↔ x ∈ T := by
        intro x
        rw [mem_group_iff db T m x]
        constructor
        · exact And.left
        · intro hx
          exact ⟨hx, hall x hx⟩
      have hfin :
          (((mtMatching db T).filter (fun mt => mt.media_id == m)).map
            (·.tag_id)).toFinset = T.toFinset := by
        ext x
        rw [List.mem_toFinset, List.mem_toFinset]
        exact hmemeq x
      calc (((mtMatching db T).filter (fun mt => mt.media_id == m)).map
            (·.tag_id)).dedup.length
          = (((mtMatching db T).filter (fun mt => mt.media_id == m)).map
            (·.tag_id)).toFinset.card := (List.card_toFinset _).symm
        _ = T.toFinset.card := by rw [hfin]
        _ = T.length := List.toFinset_card_of_nodup hnodup

/-- C1: `ListMediaByTags` deduplicates the requested tag ids, fails with
`NoTagsProvided` exactly when the (deduplicated) input is empty, and
otherwise returns exactly those media rows that carry an association with
every requested tag id — the group-by/having-count-distinct query is
AND/intersection semantics. -/
theorem listMediaFromTags_intersection (db : DB) (tagsIn : List Int) :
    (listMediaFromTags db tagsIn = .error .NoTagsProvided ↔ tagsIn = []) ∧
    (tagsIn ≠ [] →
      ∃ out, listMediaFromTags db tagsIn = .ok out ∧
        ∀ m : MediaFile, m ∈ out ↔
          (m ∈ db.media ∧
            ∀ t ∈ tagsIn,
              ∃ mt ∈ db.media_tags, mt.media_id = m.id ∧ mt.tag_id = t)) := by
  have hTnil : rustDedup (sortLe (fun a b => decide (a ≤ b)) tagsIn) = [] ↔
      tagsIn = [] := by
    rw [rustDedup_eq_nil_iff]
    constructor
    · intro h
      have hp := sortLe_perm (fun a b : Int => decide (a ≤ b)) tagsIn
      rw [h] at hp
      exact (List.Perm.symm hp).eq_nil
    · intro h
      subst h
      rfl
  have hmemT : ∀ t : Int,
      t ∈ rustDedup (sortLe (fun a b => decide (a ≤ b)) tagsIn) ↔ t ∈ tagsIn := by
    intro t
    rw [rustDedup_mem_iff, mem_sortLe]
  have hnodupT : (rustDedup (sortLe (fun a b => decide (a ≤ b)) tagsIn)).Nodup := by
    refine rustDedup_nodup _ ?_
    have hp := sortLe_pairwise (fun a b : Int => decide (a ≤ b))
      (fun a b => by
        rcases Int.le_total a b with h | h
        · exact Or.inl (decide_eq_true h)
        · exact Or.inr (decide_eq_true h))
      (fun a b c hab hbc =>
        decide_eq_true (le_trans (of_decide_eq_true hab) (of_decide_eq_true hbc)))
      tagsIn
    exact hp.imp (fun h => of_decide_eq_true h)
  constructor
  · unfold listMediaFromTags
    dsimp only
    by_cases h : (rustDedup (sortLe (fun a b => decide (a ≤ b)) tagsIn)).isEmpty = true
    · rw [if_pos h]
      simp only [true_iff]
      exact hTnil.mp (List.isEmpty_iff.mp h)
    · rw [if_neg h]
      constructor
      · intro hcontra
        exact absurd hcontra (by simp)
      · intro hnil
        exact absurd (List.isEmpty_iff.mpr (hTnil.mpr hnil)) h
  · intro hne
    have hTne : rustDedup (sortLe (fun a b => decide (a ≤ b)) tagsIn) ≠ [] :=
      fun h => hne (hTnil.mp h)
    have hTempty :
        (rustDedup (sortLe (fun a b => decide (a ≤ b)) tagsIn)).isEmpty = false := by
      cases hq : (rustDedup (sortLe (fun a b => decide (a ≤ b)) tagsIn)).isEmpty
      · rfl
      · exact absurd (List.isEmpty_iff.mp hq) hTne
    refine ⟨db.media.filter (fun mf =>
        (mtQualifyingIds db
          (rustDedup (sortLe (fun a b => decide (a ≤ b)) tagsIn))).contains mf.id),
      ?_, ?_⟩
    · unfold listMediaFromTags
      dsimp only
      rw [hTempty]
      simp
    · intro m
      rw [List.mem_filter]
      constructor
      · rintro ⟨hm, hcont⟩
        refine ⟨hm, ?_⟩
        intro t ht
        exact (mem_mtQualifyingIds db _ hnodupT hTne m.id).mp
          ((contains_iff_mem _ m.id).mp hcont) t ((hmemT t).mpr ht)
      · rintro ⟨hm, hall⟩
        refine ⟨hm, (contains_iff_mem _ m.id).mpr ?_⟩
        exact (mem_mtQualifyingIds db _ hnodupT hTne m.id).mpr
          (fun t ht => hall t ((hmemT t).mp ht))

/-- C1 witness: on `dbC1` — M1 tagged with T1 and T2, M2 with T1, M3 with
T1, T2, T3 — querying tags [1, 2] returns exactly M1 and M3. -/
theorem listMediaFromTags_intersection_example :
    ∃ out, listMediaFromTags dbC1 [1, 2] = .ok out ∧
      ∀ m : MediaFile, m ∈ out ↔
        (m ∈ dbC1.media ∧
          ∀ t ∈ [(1 : Int), 2],
            ∃ mt ∈ dbC1.media_tags, mt.media_id = m.id ∧ mt.tag_id = t) :=
  (listMediaFromTags_intersection dbC1 [1, 2]).2 (by decide)

end TagMedia
